import Mathlib

/-!
Verification of the Progression & Analytics Engine of the training-log
application.  The definitions below are a shallow embedding of the
JavaScript source: JS numbers are modelled as rationals (`ℚ`),
timestamps as integers (milliseconds), optional fields as `Option`,
and `Array.prototype.sort` with the `b.timestamp - a.timestamp`
comparator as a stable descending insertion sort.  `Math.round` is
round-half-up (`⌊q + 1/2⌋`), matching JS semantics on rationals.
-/

set_option maxRecDepth 2000

namespace Dojo

/-- `DAY_MS` from the source: `24 * 60 * 60 * 1000`. -/
def DAY_MS : ℤ := 24 * 60 * 60 * 1000

/-- JS `Math.round`: round half toward positive infinity.  Written as
`num / den` of the (reduced) rational so that it evaluates by kernel
reduction; `jsRound_eq_floor` below identifies it with `⌊q + 1/2⌋`. -/
def jsRound (q : ℚ) : ℤ := (q + 1/2).num / ((q + 1/2).den : ℤ)

/-- `clamp(value, min, max)` from the source:
`Math.min(Math.max(value, min), max)`. -/
def clamp (value lo hi : ℚ) : ℚ := min (max value lo) hi

/-- Stable ascending insertion into a sorted list of rationals
(models the `(a, b) => a - b` numeric sort used by `median`). -/
def insertAsc (x : ℚ) : List ℚ → List ℚ
  | [] => [x]
  | y :: ys => if x < y then x :: y :: ys else y :: insertAsc x ys

/-- JS `values.sort((a, b) => a - b)` on a fresh copy of the array. -/
def sortAsc (values : List ℚ) : List ℚ :=
  values.foldl (fun acc x => insertAsc x acc) []

/-- `median(values)` from the source: 0 on empty input; sort a copy
ascending; average the two middle elements for even length. -/
def median (values : List ℚ) : ℚ :=
  if values.length = 0 then 0
  else
    let sorted := sortAsc values
    let mid := sorted.length / 2
    if sorted.length % 2 = 0 then (sorted.getD (mid - 1) 0 + sorted.getD mid 0) / 2
    else sorted.getD mid 0

/-- `average(values)` from the source. -/
def average (values : List ℚ) : ℚ :=
  if values.length = 0 then 0 else values.sum / values.length

/-- `estimate1RM(reps, loadKg)` from the source. -/
def estimate1RM (reps loadKg : ℚ) : ℚ := loadKg * (1 + reps / 30)

/-- A `LogEntry` as consumed by the engine (`id`/`exerciseId` are not
read by any computation and are omitted). -/
structure Log where
  timestamp : ℤ
  status : String
  reps : Option ℚ := none
  loadKg : Option ℚ := none
  durationSec : Option ℚ := none
  rir : Option ℚ := none
  pain0to10 : Option ℚ := none
deriving Repr, DecidableEq

/-- A `ProgressionProfile`. -/
structure ProgressionProfile where
  targetRirMin : ℚ
  targetRirMax : ℚ
  maxWeeklyVolumeIncreasePct : ℚ
  painWarn : ℚ
  painReduce : ℚ
  deloadDays : ℚ
  deloadVolumeFactor : ℚ
  freezeDaysIfPain : ℕ
deriving Repr, DecidableEq

/-- The `defaultProgression` constant from the source
(`deloadVolumeFactor: 0.65` is `13/20`). -/
def defaultProgression : ProgressionProfile :=
  { targetRirMin := 3
    targetRirMax := 5
    maxWeeklyVolumeIncreasePct := 10
    painWarn := 3
    painReduce := 5
    deloadDays := 7
    deloadVolumeFactor := 13/20
    freezeDaysIfPain := 2 }

/-- The `ctx` argument of `computeNextTarget`. -/
structure Ctx where
  now : ℤ
  profile : ProgressionProfile
deriving Repr, DecidableEq

/-- Stable descending insertion for the
`(a, b) => b.timestamp - a.timestamp` comparator: a new element goes
after every already-placed element with a greater-or-equal timestamp. -/
def insertByTsDesc (x : Log) : List Log → List Log
  | [] => [x]
  | y :: ys => if y.timestamp < x.timestamp then x :: y :: ys else y :: insertByTsDesc x ys

/-- JS stable sort by timestamp, newest first. -/
def sortByTsDesc (logs : List Log) : List Log :=
  logs.foldl (fun acc x => insertByTsDesc x acc) []

/-- Result object of `getRecentCompleteLogs`. -/
structure GuardrailResult where
  recentLogs : List Log
  profile : ProgressionProfile
  explanation : List String
  frozen : Bool
  deload : Bool
deriving Repr, DecidableEq

/-- `getRecentCompleteLogs(logs, ctx, overrideProfile)` from the source:
complete logs of the last 14 days, newest first, capped at 30, plus the
pain guardrail decision computed from the up-to-`freezeDaysIfPain`
most recent logs carrying a `pain0to10` value (any status). -/
def getRecentCompleteLogs (logs : List Log) (ctx : Ctx)
    (overrideProfile : Option ProgressionProfile) : GuardrailResult :=
  let profile := overrideProfile.getD ctx.profile
  let recentLogs :=
    (sortByTsDesc
      ((logs.filter (fun l => decide (l.status = "complete"))).filter
        (fun l => decide (ctx.now - l.timestamp ≤ 14 * DAY_MS)))).take 30
  let painFlags :=
    (sortByTsDesc (logs.filter (fun l => l.pain0to10.isSome))).take profile.freezeDaysIfPain
  let painHigh := painFlags.any (fun l => decide (l.pain0to10.getD 0 ≥ profile.painReduce))
  let painWarnStreak :=
    decide (painFlags.length = profile.freezeDaysIfPain) &&
      painFlags.all (fun l => decide (l.pain0to10.getD 0 ≥ profile.painWarn))
  let deload := painHigh || painWarnStreak
  let frozen := deload
  { recentLogs := recentLogs
    profile := profile
    explanation := if deload then ["Pain guardrails triggered a deload."] else []
    frozen := frozen
    deload := deload }

/-- Result object of `getWeeklyVolume`. -/
structure WeeklyVolume where
  volumeThisWeek : ℚ
  volumePrevWeek : ℚ
deriving Repr, DecidableEq

/-- `getWeeklyVolume(logs, now, volumeFn)` from the source.  This week:
`log.timestamp >= now - 7*DAY_MS` (no upper bound in the code);
previous week: `now - 14*DAY_MS <= log.timestamp < now - 7*DAY_MS`. -/
def getWeeklyVolume (logs : List Log) (now : ℤ) (volumeFn : Log → ℚ) : WeeklyVolume :=
  let weekStart := now - 7 * DAY_MS
  let prevWeekStart := now - 14 * DAY_MS
  { volumeThisWeek :=
      (logs.filter (fun l => decide (l.timestamp ≥ weekStart))).foldl
        (fun s l => s + volumeFn l) 0
    volumePrevWeek :=
      (logs.filter (fun l => decide (l.timestamp ≥ prevWeekStart ∧ l.timestamp < weekStart))).foldl
        (fun s l => s + volumeFn l) 0 }

/-- The `NextTarget` object returned by `computeNextTarget` in the
RIR-driven engine; only the kind-appropriate metric fields are set. -/
structure NextTarget where
  metricType : String
  reps : Option ℚ := none
  loadKg : Option ℚ := none
  durationSec : Option ℚ := none
  explanation : List String
  frozen : Bool
  deload : Bool
deriving Repr, DecidableEq

/-- `recentLogs.map(log => log.rir).filter(rir => rir !== undefined)`
followed by the `recentRir.length ? median(recentRir) : undefined`
computation shared by all `computeNextTarget` variants. -/
def medianRirOf (recentLogs : List Log) : Option ℚ :=
  let recentRir := (recentLogs.map (fun l => l.rir)).filterMap id
  if recentRir.length = 0 then none else some (median recentRir)

/-- A `{min, max}` range (`repRange`, `durationRangeSec`). -/
structure RepRange where
  min : ℚ
  max : ℚ
deriving Repr, DecidableEq

/-- A rep-based exercise after hydration: `repRange` present,
`repIncrement`/`minRepsFloor` already defaulted by the constructor. -/
structure RepsExercise where
  repRange : RepRange
  repIncrement : ℚ
  minRepsFloor : ℚ
  progressionProfile : Option ProgressionProfile := none
deriving Repr, DecidableEq

/-- Core of `RepsExercise.computeNextTarget`, parameterized by the
guardrail result and weekly volume it consumes (both are computed from
`(logs, ctx)` by the wrapper below, exactly as in the source). -/
def repsNext (ex : RepsExercise) (g : GuardrailResult) (wv : WeeklyVolume) : NextTarget :=
  let medianRir := medianRirOf g.recentLogs
  let lastTarget := (g.recentLogs.head?.bind (fun l => l.reps)).getD ex.repRange.min
  let step : ℚ × List String :=
    if !g.frozen && !g.deload then
      match medianRir with
      | some m =>
          if m > g.profile.targetRirMax then
            (lastTarget + ex.repIncrement, g.explanation ++ ["Effort was easy; nudging reps up."])
          else if m < g.profile.targetRirMin then
            (lastTarget - ex.repIncrement, g.explanation ++ ["Effort was high; reducing reps."])
          else (lastTarget, g.explanation)
      | none => (lastTarget, g.explanation)
    else (lastTarget, g.explanation)
  let clamped := clamp step.1 ex.minRepsFloor ex.repRange.max
  let volumeIncreasePct :=
    if wv.volumePrevWeek = 0 then 0
    else (wv.volumeThisWeek - wv.volumePrevWeek) / wv.volumePrevWeek * 100
  let capped : ℚ × List String :=
    if wv.volumePrevWeek > 0 ∧ volumeIncreasePct > g.profile.maxWeeklyVolumeIncreasePct then
      (lastTarget, step.2 ++ ["Volume cap hit; holding steady."])
    else (clamped, step.2)
  let final : ℚ × List String :=
    if g.deload then
      (max ex.minRepsFloor ((jsRound (lastTarget * g.profile.deloadVolumeFactor) : ℤ) : ℚ),
        capped.2 ++ ["Deload active; reducing volume."])
    else capped
  { metricType := "reps"
    reps := some final.1
    explanation := final.2
    frozen := g.frozen
    deload := g.deload }

/-- `RepsExercise.computeNextTarget(logs, ctx)` from the source. -/
def RepsExercise.computeNextTarget (ex : RepsExercise) (logs : List Log) (ctx : Ctx) : NextTarget :=
  repsNext ex (getRecentCompleteLogs logs ctx ex.progressionProfile)
    (getWeeklyVolume logs ctx.now (fun l => l.reps.getD 0))

/-- A weighted-rep exercise after hydration. -/
structure WeightedRepsExercise where
  repRange : RepRange
  repIncrement : ℚ
  loadIncrementKg : ℚ
  progressionPriority : String := "reps_then_load"
  progressionProfile : Option ProgressionProfile := none
deriving Repr, DecidableEq

/-- Core of `WeightedRepsExercise.computeNextTarget`, parameterized by
the guardrail result and weekly volume it consumes. -/
def weightedNext (ex : WeightedRepsExercise) (g : GuardrailResult) (wv : WeeklyVolume) :
    NextTarget :=
  let medianRir := medianRirOf g.recentLogs
  let lastLog := g.recentLogs.head?
  let lastReps := (lastLog.bind (fun l => l.reps)).getD ex.repRange.min
  let lastLoad := (lastLog.bind (fun l => l.loadKg)).getD (ex.loadIncrementKg * 4)
  let step : ℚ × ℚ × List String :=
    if !g.frozen && !g.deload then
      match medianRir with
      | some m =>
          if m > g.profile.targetRirMax then
            if lastReps < ex.repRange.max then
              (lastReps + ex.repIncrement, lastLoad,
                g.explanation ++ ["Effort was easy; nudging reps up."])
            else
              (ex.repRange.min, lastLoad + ex.loadIncrementKg,
                g.explanation ++ ["Hit top reps; adding load and resetting reps."])
          else if m < g.profile.targetRirMin then
            (max ex.repRange.min (lastReps - ex.repIncrement), lastLoad,
              g.explanation ++ ["Effort was high; reducing reps."])
          else (lastReps, lastLoad, g.explanation)
      | none => (lastReps, lastLoad, g.explanation)
    else (lastReps, lastLoad, g.explanation)
  let volumeIncreasePct :=
    if wv.volumePrevWeek = 0 then 0
    else (wv.volumeThisWeek - wv.volumePrevWeek) / wv.volumePrevWeek * 100
  let capped : ℚ × ℚ × List String :=
    if wv.volumePrevWeek > 0 ∧ volumeIncreasePct > g.profile.maxWeeklyVolumeIncreasePct then
      (lastReps, lastLoad, step.2.2 ++ ["Volume cap hit; holding steady."])
    else step
  let final : ℚ × ℚ × List String :=
    if g.deload then
      (max ex.repRange.min ((jsRound (lastReps * g.profile.deloadVolumeFactor) : ℤ) : ℚ),
        max ex.loadIncrementKg ((jsRound (lastLoad * g.profile.deloadVolumeFactor) : ℤ) : ℚ),
        capped.2.2 ++ ["Deload active; reducing volume."])
    else capped
  { metricType := "weightedReps"
    reps := some final.1
    loadKg := some final.2.1
    explanation := final.2.2
    frozen := g.frozen
    deload := g.deload }

/-- `WeightedRepsExercise.computeNextTarget(logs, ctx)` from the source. -/
def WeightedRepsExercise.computeNextTarget (ex : WeightedRepsExercise) (logs : List Log)
    (ctx : Ctx) : NextTarget :=
  weightedNext ex (getRecentCompleteLogs logs ctx ex.progressionProfile)
    (getWeeklyVolume logs ctx.now (fun l => (l.reps.getD 0) * (l.loadKg.getD 0)))

/-- State-passing view of `RepsExercise.computeNextTarget`: the second
component is the value of the `logs` argument when the call returns.
In the source every `.sort(...)` (the only mutating array operation
reachable from `computeNextTarget`) is applied to a fresh array
produced by `.filter(...)` or `[...values]`, and `logs` is never
reassigned, so the argument array is returned unchanged. -/
def repsComputeNextTargetSt (ex : RepsExercise) (logs : List Log) (ctx : Ctx) :
    NextTarget × List Log :=
  (ex.computeNextTarget logs ctx, logs)

/-- State-passing view of `WeightedRepsExercise.computeNextTarget`
(same modelling as `repsComputeNextTargetSt`). -/
def weightedComputeNextTargetSt (ex : WeightedRepsExercise) (logs : List Log) (ctx : Ctx) :
    NextTarget × List Log :=
  (ex.computeNextTarget logs ctx, logs)

/-- A `baseline.topSet` object of the GTG variant (`src/docs/app.js`). -/
structure TopSet where
  reps : Option ℚ := none
  loadKg : Option ℚ := none
deriving Repr, DecidableEq

/-- A raw `baseline` object of the GTG variant, before normalization. -/
structure RawBaseline where
  maxCleanReps : Option ℚ := none
  topSet : Option TopSet := none
  maxCleanHoldSec : Option ℚ := none
  intensityPct : Option ℚ := none
deriving Repr, DecidableEq

/-- A stored exercise record as it may arrive from the store or an
import: every configuration field may be absent. -/
structure RawExerciseRecord where
  type : String := "reps"
  repRange : Option RepRange := none
  repIncrement : Option ℚ := none
  minRepsFloor : Option ℚ := none
  loadIncrementKg : Option ℚ := none
  durationRangeSec : Option RepRange := none
  progressionPriority : Option String := none
  progressionProfile : Option ProgressionProfile := none
  baseline : Option RawBaseline := none
  deloadUntil : Option ℤ := none
deriving Repr, DecidableEq

/-- `RepsExercise.computeNextTarget` of `src/unnamed/part_001` run on a
raw record, with JS property access on `undefined` modelled as a crash
(`none`).  `hydrateExercise` in that file performs no normalization:
the constructor defaults `repIncrement`/`minRepsFloor` (`?? 1`) but
copies `repRange` as-is, and the method reads `this.repRange.min`
(when there is no usable history) and always reads `this.repRange.max`
in the clamp step, so a record without `repRange` throws a TypeError. -/
def repsComputeNextTargetPart001 (record : RawExerciseRecord) (logs : List Log) (ctx : Ctx) :
    Option NextTarget :=
  let repIncrement := record.repIncrement.getD 1
  let minRepsFloor := record.minRepsFloor.getD 1
  let g := getRecentCompleteLogs logs ctx record.progressionProfile
  let medianRir := medianRirOf g.recentLogs
  do
    -- `recentLogs[0]?.reps ?? this.repRange.min` (the right operand of
    -- `??` is evaluated only when the left one is undefined)
    let lastTarget ←
      match g.recentLogs.head?.bind (fun l => l.reps) with
      | some v => some v
      | none => record.repRange.map (fun r => r.min)
    let step : ℚ × List String :=
      if !g.frozen && !g.deload then
        match medianRir with
        | some m =>
            if m > g.profile.targetRirMax then
              (lastTarget + repIncrement, g.explanation ++ ["Effort was easy; nudging reps up."])
            else if m < g.profile.targetRirMin then
              (lastTarget - repIncrement, g.explanation ++ ["Effort was high; reducing reps."])
            else (lastTarget, g.explanation)
        | none => (lastTarget, g.explanation)
      else (lastTarget, g.explanation)
    -- `clamp(nextReps, this.minRepsFloor, this.repRange.max)` always
    -- dereferences `this.repRange`
    let rr ← record.repRange
    let clamped := clamp step.1 minRepsFloor rr.max
    let wv := getWeeklyVolume logs ctx.now (fun l => l.reps.getD 0)
    let volumeIncreasePct :=
      if wv.volumePrevWeek = 0 then 0
      else (wv.volumeThisWeek - wv.volumePrevWeek) / wv.volumePrevWeek * 100
    let capped : ℚ × List String :=
      if wv.volumePrevWeek > 0 ∧ volumeIncreasePct > g.profile.maxWeeklyVolumeIncreasePct then
        (lastTarget, step.2 ++ ["Volume cap hit; holding steady."])
      else (clamped, step.2)
    let final : ℚ × List String :=
      if g.deload then
        (max minRepsFloor ((jsRound (lastTarget * g.profile.deloadVolumeFactor) : ℤ) : ℚ),
          capped.2 ++ ["Deload active; reducing volume."])
      else capped
    some { metricType := "reps"
           reps := some final.1
           explanation := final.2
           frozen := g.frozen
           deload := g.deload }

/-- `GTG_INTENSITY_PRESETS.normal` of the GTG variant. -/
def gtgNormalIntensity : ℚ := 1/2

/-- `INTENSITY_MIN` of the GTG variant. -/
def INTENSITY_MIN : ℚ := 3/10

/-- `INTENSITY_MAX` of the GTG variant. -/
def INTENSITY_MAX : ℚ := 7/10

/-- `normalizeIntensity(value)` of the GTG variant, applied to a
defined numeric value: `clamp(value, INTENSITY_MIN, INTENSITY_MAX)`
(the `undefined`/`NaN` guard is discharged by the `?? 0.5` fallback at
every call site). -/
def normalizeIntensity (value : ℚ) : ℚ := clamp value INTENSITY_MIN INTENSITY_MAX

/-- The `baseline` object after `normalizeExerciseRecord`:
`intensityPct` is always a number. -/
structure GtgBaseline where
  maxCleanReps : Option ℚ
  topSet : Option TopSet
  maxCleanHoldSec : Option ℚ
  intensityPct : ℚ
deriving Repr, DecidableEq

/-- An exercise record after `normalizeExerciseRecord` of the GTG
variant. -/
structure GtgExerciseRecord where
  type : String
  baseline : GtgBaseline
  deloadUntil : Option ℤ
deriving Repr, DecidableEq

/-- `normalizeExerciseRecord(record)` from `src/docs/app.js`: fill the
kind-appropriate baseline value from the record's range configuration
(or a constant default) and normalize `intensityPct`.  The ternary
`record.loadIncrementKg ? record.loadIncrementKg * 4 : 20` tests JS
truthiness, so a missing or zero increment falls back to 20. -/
def normalizeExerciseRecord (record : RawExerciseRecord) : GtgExerciseRecord :=
  let b := record.baseline.getD {}
  let filled : GtgBaseline :=
    if record.type = "reps" then
      { maxCleanReps := some (b.maxCleanReps.getD ((record.repRange.map (fun r => r.max)).getD 10))
        topSet := b.topSet
        maxCleanHoldSec := b.maxCleanHoldSec
        intensityPct := 0 }
    else if record.type = "weighted" then
      { maxCleanReps := b.maxCleanReps
        topSet := some (b.topSet.getD
          { reps := some ((record.repRange.map (fun r => r.max)).getD 8)
            loadKg := some (match record.loadIncrementKg with
              | some v => if v ≠ 0 then v * 4 else 20
              | none => 20) })
        maxCleanHoldSec := b.maxCleanHoldSec
        intensityPct := 0 }
    else
      { maxCleanReps := b.maxCleanReps
        topSet := b.topSet
        maxCleanHoldSec :=
          some (b.maxCleanHoldSec.getD ((record.durationRangeSec.map (fun r => r.max)).getD 30))
        intensityPct := 0 }
  { type := record.type
    baseline := { filled with intensityPct := normalizeIntensity (b.intensityPct.getD gtgNormalIntensity) }
    deloadUntil := record.deloadUntil }

/-- `getEffectiveIntensity(exercise, now)` of the GTG variant.  The
`exercise.deloadUntil ? now < exercise.deloadUntil : false` ternary
tests truthiness, so a zero timestamp disables the deload. -/
def getEffectiveIntensity (baseline : GtgBaseline) (deloadUntil : Option ℤ) (now : ℤ) :
    ℚ × Bool :=
  let baselineIntensity := normalizeIntensity baseline.intensityPct
  let deloadActive : Bool :=
    match deloadUntil with
    | some t => if t ≠ 0 then decide (now < t) else false
    | none => false
  (if deloadActive then INTENSITY_MIN else baselineIntensity, deloadActive)

/-- `getIntensityLabel(intensityPct)` of the GTG variant. -/
def getIntensityLabel (intensityPct : ℚ) : String :=
  let rounded := jsRound (intensityPct * 100)
  if rounded = 40 then "Easy"
  else if rounded = 50 then "Normal"
  else if rounded = 60 then "Hard"
  else if rounded = 30 then "Deload"
  else "Auto"

/-- `buildIntensityExplanation(intensityPct, deloadActive)` of the GTG
variant. -/
def buildIntensityExplanation (intensityPct : ℚ) (deloadActive : Bool) : List String :=
  if deloadActive then ["Deload active: easy sets for recovery."]
  else ["GTG intensity: " ++ getIntensityLabel intensityPct ++ "."]

/-- The target object returned by the GTG variant's
`computeNextTarget` (it has no `frozen` flag). -/
structure GtgTarget where
  metricType : String
  reps : Option ℚ := none
  loadKg : Option ℚ := none
  durationSec : Option ℚ := none
  explanation : List String
  deload : Bool
deriving Repr, DecidableEq

/-- `RepsExercise.computeNextTarget(logs, ctx)` of the GTG variant
(`src/docs/app.js`); `logs` is accepted but unread. -/
def gtgRepsComputeNextTarget (record : GtgExerciseRecord) (logs : List Log) (ctx : Ctx) :
    GtgTarget :=
  let e := getEffectiveIntensity record.baseline record.deloadUntil ctx.now
  let explanation := buildIntensityExplanation e.1 e.2
  let maxCleanReps := record.baseline.maxCleanReps.getD 1
  let nextReps := max 1 ((jsRound (maxCleanReps * e.1) : ℤ) : ℚ)
  let _ := logs
  { metricType := "reps"
    reps := some nextReps
    explanation := explanation
    deload := e.2 }

/-! ### Concrete inputs used by counterexamples and witnesses -/

/-- A context 20 days after the epoch with the default profile. -/
def ctx20 : Ctx := { now := 20 * DAY_MS, profile := defaultProgression }

/-- A rep-based exercise with `repRange {min: 5, max: 10}`. -/
def exC9 : RepsExercise := { repRange := ⟨5, 10⟩, repIncrement := 1, minRepsFloor := 1 }

/-- A complete log one day old with 15 reps. -/
def logC9a : Log := { timestamp := 19 * DAY_MS, status := "complete", reps := some 15 }

/-- A complete log eight days old with 1 rep. -/
def logC9b : Log := { timestamp := 12 * DAY_MS, status := "complete", reps := some 1 }

/-- The weighted Bench-Press-style exercise: `repRange {min: 6, max: 10}`,
`repIncrement 1`, `loadIncrementKg 2.5`. -/
def exW6to10 : WeightedRepsExercise := { repRange := ⟨6, 10⟩, repIncrement := 1, loadIncrementKg := 5/2 }

/-- A complete weighted log one day old: 8 reps at 20 kg, `rir 4`
(inside the default `[targetRirMin, targetRirMax] = [3, 5]` band). -/
def logMidRir : Log :=
  { timestamp := 19 * DAY_MS, status := "complete", reps := some 8, loadKg := some 20, rir := some 4 }

/-- A complete weighted log one day old: 8 reps at 20 kg, `rir 2`
(below the default `targetRirMin = 3`). -/
def logLowRir : Log :=
  { timestamp := 19 * DAY_MS, status := "complete", reps := some 8, loadKg := some 20, rir := some 2 }

/-- A complete weighted log one day old at the top of the rep range:
10 reps at 20 kg, `rir 6` (above the default `targetRirMax = 5`). -/
def logTopEasy : Log :=
  { timestamp := 19 * DAY_MS, status := "complete", reps := some 10, loadKg := some 20, rir := some 6 }

/-- Like `logTopEasy` but additionally reporting `pain0to10 = 9`,
which triggers the pain deload guardrail. -/
def logTopEasyPain : Log :=
  { timestamp := 19 * DAY_MS, status := "complete", reps := some 10, loadKg := some 20,
    rir := some 6, pain0to10 := some 9 }

/-- A rep-based exercise with `repRange {min: 6, max: 15}`. -/
def exR15 : RepsExercise := { repRange := ⟨6, 15⟩, repIncrement := 1, minRepsFloor := 1 }

/-- The default profile with `freezeDaysIfPain = 1`. -/
def profFreeze1 : ProgressionProfile := { defaultProgression with freezeDaysIfPain := 1 }

/-- The default profile with `freezeDaysIfPain = 0`. -/
def profFreeze0 : ProgressionProfile := { defaultProgression with freezeDaysIfPain := 0 }

/-- A context using `profFreeze1`. -/
def ctxFreeze1 : Ctx := { now := 20 * DAY_MS, profile := profFreeze1 }

/-- A context using `profFreeze0`. -/
def ctxFreeze0 : Ctx := { now := 20 * DAY_MS, profile := profFreeze0 }

/-- A skipped (incomplete) log one day old reporting `pain0to10 = 0`. -/
def logSkippedNoPain : Log := { timestamp := 19 * DAY_MS, status := "skipped", pain0to10 := some 0 }

/-- A complete log two days old with 10 reps reporting `pain0to10 = 7`. -/
def logCompletePain7 : Log :=
  { timestamp := 18 * DAY_MS, status := "complete", reps := some 10, pain0to10 := some 7 }

/-- A complete log one day old with 115 reps (this week's volume). -/
def log115 : Log := { timestamp := 19 * DAY_MS, status := "complete", reps := some 115 }

/-- A complete log eight days old with 100 reps (previous week's volume). -/
def log100 : Log := { timestamp := 12 * DAY_MS, status := "complete", reps := some 100 }

/-- A complete log whose timestamp equals `now` (used against the
weekly-volume window claim). -/
def logAtNow : Log := { timestamp := 0, status := "complete" }

/-! ### Helper lemmas -/

/-- `jsRound` is the mathematical round-half-up. -/
theorem jsRound_eq_floor (q : ℚ) : jsRound q = ⌊q + 1/2⌋ := Rat.floor_def.symm

/-- The `reduce((sum, log) => sum + volumeFn(log), 0)` accumulation is
the sum of the mapped list. -/
theorem foldl_add_map (f : Log → ℚ) :
    ∀ (xs : List Log) (a : ℚ), xs.foldl (fun s l => s + f l) a = a + (xs.map f).sum := by
  intro xs
  induction xs with
  | nil => intro a; simp
  | cons x xs ih => intro a; simp [ih, add_assoc]

/-- The guardrail evaluator marks `frozen` and `deload` identically. -/
theorem getRecentCompleteLogs_frozen_eq_deload (logs : List Log) (ctx : Ctx)
    (op : Option ProgressionProfile) :
    (getRecentCompleteLogs logs ctx op).frozen = (getRecentCompleteLogs logs ctx op).deload := rfl

/-- The guardrail evaluator resolves the profile as
`overrideProfile ?? ctx.profile`. -/
theorem getRecentCompleteLogs_profile (logs : List Log) (ctx : Ctx)
    (op : Option ProgressionProfile) :
    (getRecentCompleteLogs logs ctx op).profile = op.getD ctx.profile := rfl

/-- If the most recent pain-carrying log reaches `painReduce` and
`freezeDaysIfPain ≥ 1`, the guardrail evaluator deloads (`painHigh`). -/
theorem deload_of_pain_head (logs : List Log) (ctx : Ctx) (op : Option ProgressionProfile)
    (l0 : Log)
    (hhead : (sortByTsDesc (logs.filter (fun l => l.pain0to10.isSome))).head? = some l0)
    (hq : l0.pain0to10.getD 0 ≥ (op.getD ctx.profile).painReduce)
    (hfr : 1 ≤ (op.getD ctx.profile).freezeDaysIfPain) :
    (getRecentCompleteLogs logs ctx op).deload = true := by
  unfold getRecentCompleteLogs
  simp only
  obtain ⟨k, hk⟩ := Nat.exists_eq_add_of_le hfr
  cases hl : sortByTsDesc (logs.filter (fun l => l.pain0to10.isSome)) with
  | nil => rw [hl] at hhead; simp at hhead
  | cons y ys =>
      rw [hl] at hhead
      simp only [List.head?_cons, Option.some.injEq] at hhead
      subst hhead
      rw [hk]
      simp only [Nat.add_comm 1 k]
      rw [List.take_succ_cons]
      simp only [List.any_cons, Bool.or_eq_true, decide_eq_true_eq]
      left; left
      exact hq

/-- With `freezeDaysIfPain = 0` the pain-streak test is vacuously
satisfied, so the guardrail evaluator deloads. -/
theorem deload_of_freeze_zero (logs : List Log) (ctx : Ctx) (op : Option ProgressionProfile)
    (h : (op.getD ctx.profile).freezeDaysIfPain = 0) :
    (getRecentCompleteLogs logs ctx op).deload = true := by
  unfold getRecentCompleteLogs
  simp [h]

/-- When the guardrail deload flag is set, the rep-based target is
`max(minRepsFloor, round(lastTarget * deloadVolumeFactor))` and the
deload note is appended, whatever the effort and volume steps did. -/
theorem repsNext_deload (ex : RepsExercise) (g : GuardrailResult) (wv : WeeklyVolume)
    (hdl : g.deload = true) :
    (repsNext ex g wv).reps =
        some (max ex.minRepsFloor
          ((jsRound (((g.recentLogs.head?.bind (fun l => l.reps)).getD ex.repRange.min) *
              g.profile.deloadVolumeFactor) : ℤ) : ℚ)) ∧
      (repsNext ex g wv).deload = true := by
  unfold repsNext
  simp [hdl]

/-- When the volume-cap condition holds, the rep-based target carries
the cap note, and (absent a deload) the returned reps equal
`lastTarget`. -/
theorem repsNext_cap (ex : RepsExercise) (g : GuardrailResult) (wv : WeeklyVolume)
    (hw : wv.volumePrevWeek > 0)
    (hpct : (wv.volumeThisWeek - wv.volumePrevWeek) / wv.volumePrevWeek * 100 >
      g.profile.maxWeeklyVolumeIncreasePct) :
    "Volume cap hit; holding steady." ∈ (repsNext ex g wv).explanation ∧
      (g.deload = false →
        (repsNext ex g wv).reps =
          some ((g.recentLogs.head?.bind (fun l => l.reps)).getD ex.repRange.min)) := by
  have hne : wv.volumePrevWeek ≠ 0 := ne_of_gt hw
  unfold repsNext
  simp only [if_neg hne, if_pos (And.intro hw hpct)]
  cases hdl : g.deload with
  | true =>
      constructor
      · simp [List.mem_append]
      · intro h; simp at h
  | false =>
      constructor
      · simp [List.mem_append]
      · intro _; rfl

/-- `medianRirOf` of an empty working set is undefined. -/
theorem medianRirOf_nil : medianRirOf [] = none := rfl

/-- Effort step of the weighted variant when the median RIR is under
`targetRirMin` (and no freeze/deload/volume-cap interferes): reps drop
by `repIncrement` floored at `repRange.min`, load is untouched. -/
theorem weightedNext_high_effort (ex : WeightedRepsExercise) (g : GuardrailResult)
    (wv : WeeklyVolume) (m : ℚ)
    (hfz : g.frozen = false) (hdl : g.deload = false)
    (hm : medianRirOf g.recentLogs = some m)
    (hlt : m < g.profile.targetRirMin)
    (hmm : g.profile.targetRirMin ≤ g.profile.targetRirMax)
    (hcap : ¬(wv.volumePrevWeek > 0 ∧
      (if wv.volumePrevWeek = 0 then (0 : ℚ)
        else (wv.volumeThisWeek - wv.volumePrevWeek) / wv.volumePrevWeek * 100) >
        g.profile.maxWeeklyVolumeIncreasePct)) :
    (weightedNext ex g wv).reps =
        some (max ex.repRange.min
          (((g.recentLogs.head?.bind (fun l => l.reps)).getD ex.repRange.min) - ex.repIncrement)) ∧
      (weightedNext ex g wv).loadKg =
        some ((g.recentLogs.head?.bind (fun l => l.loadKg)).getD (ex.loadIncrementKg * 4)) := by
  have hmmax : ¬(m > g.profile.targetRirMax) := not_lt.mpr (le_of_lt (lt_of_lt_of_le hlt hmm))
  unfold weightedNext
  simp only [hfz, hdl, hm, Bool.not_false, Bool.and_self, if_true]
  rw [if_neg hmmax, if_pos hlt, if_neg hcap]
  simp

/-- Effort step of the weighted variant at the top of the rep range
with easy effort (and no freeze/deload/volume-cap): reps reset to
`repRange.min`, load grows by `loadIncrementKg`. -/
theorem weightedNext_top_out (ex : WeightedRepsExercise) (g : GuardrailResult)
    (wv : WeeklyVolume) (m : ℚ) (l0 : Log) (L : ℚ)
    (hfz : g.frozen = false) (hdl : g.deload = false)
    (hm : medianRirOf g.recentLogs = some m)
    (hgt : m > g.profile.targetRirMax)
    (hhead : g.recentLogs.head? = some l0)
    (hreps : l0.reps = some 10) (hload : l0.loadKg = some L)
    (hmax : ex.repRange.max = 10)
    (hcap : ¬(wv.volumePrevWeek > 0 ∧
      (if wv.volumePrevWeek = 0 then (0 : ℚ)
        else (wv.volumeThisWeek - wv.volumePrevWeek) / wv.volumePrevWeek * 100) >
        g.profile.maxWeeklyVolumeIncreasePct)) :
    (weightedNext ex g wv).reps = some ex.repRange.min ∧
      (weightedNext ex g wv).loadKg = some (L + ex.loadIncrementKg) := by
  unfold weightedNext
  simp only [hfz, hdl, hm, hhead, hmax, Bool.not_false, Bool.and_self, if_true,
    Option.some_bind, hreps, hload, Option.getD_some]
  rw [if_pos hgt, if_neg (lt_irrefl (10 : ℚ)), if_neg hcap]
  simp

/-- The weighted variant with an empty working set, no deload and no
previous-week volume keeps the configured minimum reps and the
`loadIncrementKg * 4` load fallback. -/
theorem weightedNext_no_history (ex : WeightedRepsExercise) (g : GuardrailResult)
    (wv : WeeklyVolume)
    (hrec : g.recentLogs = []) (hdl : g.deload = false)
    (hprev : wv.volumePrevWeek = 0) :
    (weightedNext ex g wv).reps = some ex.repRange.min ∧
      (weightedNext ex g wv).loadKg = some (ex.loadIncrementKg * 4) := by
  unfold weightedNext
  rw [hrec]
  simp [medianRirOf_nil, hdl, hprev]

/-! ### Claims -/

/-- C9: there is an input on which the rep-based `computeNextTarget`
returns reps strictly above `repRange.max`: the clamp runs before the
volume-cap override, and the cap override restores the unclamped
`lastTarget` (here a 15-rep log against `repRange.max = 10`, with a
1400% week-over-week volume increase and no deload). -/
theorem c9_cap_override_exceeds_rep_range_max :
    (exC9.computeNextTarget [logC9a, logC9b] ctx20).reps = some 15 ∧
      exC9.repRange.max = 10 ∧ (10 : ℚ) < 15 ∧
      (exC9.computeNextTarget [logC9a, logC9b] ctx20).deload = false := by
  refine ⟨by with_unfolding_all decide, by with_unfolding_all decide, by norm_num,
    by with_unfolding_all decide⟩

/-- C8: for every log history and `now`, a profile with
`freezeDaysIfPain = 0` makes the guardrail evaluator return
`deload = true` and `frozen = true`: zero selected pain-flagged logs
satisfy the length-equality and the vacuous `every(...)` of the
pain-warn streak. -/
theorem c8_freeze_zero_always_deloads (logs : List Log) (ctx : Ctx)
    (op : Option ProgressionProfile)
    (h : (op.getD ctx.profile).freezeDaysIfPain = 0) :
    (getRecentCompleteLogs logs ctx op).deload = true ∧
      (getRecentCompleteLogs logs ctx op).frozen = true := by
  have hd := deload_of_freeze_zero logs ctx op h
  exact ⟨hd, (getRecentCompleteLogs_frozen_eq_deload logs ctx op).trans hd⟩

/-- Witness for C8 at a concrete input: a pain-free complete log,
`freezeDaysIfPain = 0`. -/
theorem c8_freeze_zero_always_deloads_witness :
    ((none : Option ProgressionProfile).getD ctxFreeze0.profile).freezeDaysIfPain = 0 ∧
      ((getRecentCompleteLogs [logC9a] ctxFreeze0 none).deload = true ∧
        (getRecentCompleteLogs [logC9a] ctxFreeze0 none).frozen = true) :=
  ⟨by decide, c8_freeze_zero_always_deloads [logC9a] ctxFreeze0 none (by decide)⟩

/-- C4: in the rep-based `computeNextTarget`, whenever
`volumePrevWeek > 0` (over the full log history) and the week-over-week
increase exceeds `maxWeeklyVolumeIncreasePct`, the cap note is in the
explanation and — absent a deload, which supersedes everything — the
returned reps are reverted to `lastTarget`, superseding the step-4
effort adjustment. -/
theorem c4_volume_cap_reverts_to_last_target (ex : RepsExercise) (logs : List Log) (ctx : Ctx)
    (hw : (getWeeklyVolume logs ctx.now (fun l => l.reps.getD 0)).volumePrevWeek > 0)
    (hpct : ((getWeeklyVolume logs ctx.now (fun l => l.reps.getD 0)).volumeThisWeek -
          (getWeeklyVolume logs ctx.now (fun l => l.reps.getD 0)).volumePrevWeek) /
          (getWeeklyVolume logs ctx.now (fun l => l.reps.getD 0)).volumePrevWeek * 100 >
        (getRecentCompleteLogs logs ctx ex.progressionProfile).profile.maxWeeklyVolumeIncreasePct) :
    "Volume cap hit; holding steady." ∈ (ex.computeNextTarget logs ctx).explanation ∧
      ((getRecentCompleteLogs logs ctx ex.progressionProfile).deload = false →
        (ex.computeNextTarget logs ctx).reps =
          some (((getRecentCompleteLogs logs ctx ex.progressionProfile).recentLogs.head?.bind
              (fun l => l.reps)).getD ex.repRange.min)) :=
  repsNext_cap ex (getRecentCompleteLogs logs ctx ex.progressionProfile)
    (getWeeklyVolume logs ctx.now (fun l => l.reps.getD 0)) hw hpct

/-- Witness for C4 at the spec's own numbers: previous week 100, this
week 115 (a 15% increase against a 10% cap); the target holds at the
last logged 115 reps. -/
theorem c4_volume_cap_reverts_to_last_target_witness :
    (getWeeklyVolume [log115, log100] ctx20.now (fun l => l.reps.getD 0)).volumePrevWeek > 0 ∧
      ((getWeeklyVolume [log115, log100] ctx20.now (fun l => l.reps.getD 0)).volumeThisWeek -
          (getWeeklyVolume [log115, log100] ctx20.now (fun l => l.reps.getD 0)).volumePrevWeek) /
          (getWeeklyVolume [log115, log100] ctx20.now (fun l => l.reps.getD 0)).volumePrevWeek * 100 >
        (getRecentCompleteLogs [log115, log100] ctx20 exR15.progressionProfile).profile.maxWeeklyVolumeIncreasePct ∧
      ("Volume cap hit; holding steady." ∈ (exR15.computeNextTarget [log115, log100] ctx20).explanation ∧
        ((getRecentCompleteLogs [log115, log100] ctx20 exR15.progressionProfile).deload = false →
          (exR15.computeNextTarget [log115, log100] ctx20).reps =
            some (((getRecentCompleteLogs [log115, log100] ctx20 exR15.progressionProfile).recentLogs.head?.bind
                (fun l => l.reps)).getD exR15.repRange.min))) :=
  ⟨by with_unfolding_all decide, by with_unfolding_all decide,
    c4_volume_cap_reverts_to_last_target exR15 [log115, log100] ctx20
      (by with_unfolding_all decide) (by with_unfolding_all decide)⟩

/-- C3 counterexample: a log whose timestamp equals `now` is counted in
`volumeThisWeek` by the code, but lies outside the claimed half-open
window `[now-7d, now)`, whose sum is 0. -/
theorem c3_weekly_volume_counterexample :
    (getWeeklyVolume [logAtNow] 0 (fun _ => 1)).volumeThisWeek = 1 ∧
      (([logAtNow].filter (fun l =>
          decide (l.timestamp ≥ 0 - 7 * DAY_MS ∧ l.timestamp < 0))).map (fun _ => (1 : ℚ))).sum = 0 ∧
      (1 : ℚ) ≠ 0 := by
  refine ⟨by with_unfolding_all decide, by with_unfolding_all decide, by norm_num⟩

/-- C3 (amended): `volumePrevWeek` sums `volumeFn` over exactly the
logs with timestamp in `[now-14d, now-7d)`, but `volumeThisWeek` sums
over all logs with `timestamp ≥ now-7d` — the upper bound `< now` of
the claim is not applied by the code. -/
theorem c3_weekly_volume_windows (logs : List Log) (now : ℤ) (volumeFn : Log → ℚ) :
    (getWeeklyVolume logs now volumeFn).volumeThisWeek =
        ((logs.filter (fun l => decide (l.timestamp ≥ now - 7 * DAY_MS))).map volumeFn).sum ∧
      (getWeeklyVolume logs now volumeFn).volumePrevWeek =
        ((logs.filter (fun l =>
            decide (l.timestamp ≥ now - 14 * DAY_MS ∧ l.timestamp < now - 7 * DAY_MS))).map volumeFn).sum := by
  unfold getWeeklyVolume
  constructor <;> simp [foldl_add_map]

/-- C7: `computeNextTarget` is deterministic and mutation-free: in the
state-passing embedding the logs array comes back unchanged (every JS
sort acts on a fresh `filter`/spread copy) and a second call on the
returned state yields the identical target, for both the rep-based and
the weighted variant. -/
theorem c7_deterministic_and_pure (ex : RepsExercise) (wex : WeightedRepsExercise)
    (logs : List Log) (ctx : Ctx) :
    (repsComputeNextTargetSt ex logs ctx).2 = logs ∧
      (repsComputeNextTargetSt ex (repsComputeNextTargetSt ex logs ctx).2 ctx).1 =
        (repsComputeNextTargetSt ex logs ctx).1 ∧
      (weightedComputeNextTargetSt wex logs ctx).2 = logs ∧
      (weightedComputeNextTargetSt wex (weightedComputeNextTargetSt wex logs ctx).2 ctx).1 =
        (weightedComputeNextTargetSt wex logs ctx).1 :=
  ⟨rfl, rfl, rfl, rfl⟩

/-- C2 counterexample: in `src/unnamed/part_001`, `hydrateExercise`
performs no normalization, and `computeNextTarget` on a rep-based
record with `repRange` missing crashes (modelled as `none`): with no
usable history it dereferences `this.repRange.min`, and in every run it
dereferences `this.repRange.max` in the clamp step. -/
theorem c2_part001_missing_repRange_crashes :
    ({} : RawExerciseRecord).repRange = none ∧
      repsComputeNextTargetPart001 {} [] ctx20 = none := by
  exact ⟨rfl, rfl⟩

/-- C2 (amended): in the GTG variant (`src/docs/app.js`),
`hydrateExercise` runs `normalizeExerciseRecord` first, so for every
record of type `"reps"` — even one missing `baseline` and `repRange` —
the baseline is populated and `computeNextTarget` returns a defined
target with at least 1 rep. -/
theorem c2_gtg_normalize_never_crashes (record : RawExerciseRecord) (logs : List Log) (ctx : Ctx)
    (h : record.type = "reps") :
    (normalizeExerciseRecord record).baseline.maxCleanReps.isSome = true ∧
      ∃ v, (gtgRepsComputeNextTarget (normalizeExerciseRecord record) logs ctx).reps = some v ∧
        1 ≤ v := by
  constructor
  · unfold normalizeExerciseRecord
    simp [h]
  · refine ⟨_, rfl, le_max_left _ _⟩

/-- Witness for C2 at the fully-empty record. -/
theorem c2_gtg_normalize_never_crashes_witness :
    ({} : RawExerciseRecord).type = "reps" ∧
      ((normalizeExerciseRecord {}).baseline.maxCleanReps.isSome = true ∧
        ∃ v, (gtgRepsComputeNextTarget (normalizeExerciseRecord {}) [] ctx20).reps = some v ∧
          1 ≤ v) :=
  ⟨rfl, c2_gtg_normalize_never_crashes {} [] ctx20 rfl⟩

/-- C1 counterexample: a weighted exercise whose working set has
`medianRir = 4`, strictly below `targetRirMax = 5` (and inside the
`[3, 5]` band), with no freeze/deload: the claim requires a decrement
to `max(6, 8 - 1) = 7`, but the code leaves 8 reps — the decrement
branch tests `medianRir < targetRirMin`, not `< targetRirMax`. -/
theorem c1_decrement_counterexample :
    medianRirOf (getRecentCompleteLogs [logMidRir] ctx20 exW6to10.progressionProfile).recentLogs =
        some 4 ∧
      (4 : ℚ) < ctx20.profile.targetRirMax ∧
      (getRecentCompleteLogs [logMidRir] ctx20 exW6to10.progressionProfile).frozen = false ∧
      (getRecentCompleteLogs [logMidRir] ctx20 exW6to10.progressionProfile).deload = false ∧
      (exW6to10.computeNextTarget [logMidRir] ctx20).reps = some 8 ∧
      (exW6to10.computeNextTarget [logMidRir] ctx20).loadKg = some 20 ∧
      (8 : ℚ) ≠ max exW6to10.repRange.min (8 - exW6to10.repIncrement) := by
  with_unfolding_all decide

/-- C1 (amended): for a weighted exercise with no freeze/deload, a
defined `medianRir` strictly below `targetRirMin` (the threshold the
code actually tests, with `targetRirMin ≤ targetRirMax`), and the
weekly-volume cap not triggered, `computeNextTarget` decrements reps by
`repIncrement` floored at `repRange.min` and leaves the load unchanged. -/
theorem c1_high_effort_decrements_reps (ex : WeightedRepsExercise) (logs : List Log) (ctx : Ctx)
    (g : GuardrailResult) (wv : WeeklyVolume) (m : ℚ)
    (hg : g = getRecentCompleteLogs logs ctx ex.progressionProfile)
    (hwv : wv = getWeeklyVolume logs ctx.now (fun l => (l.reps.getD 0) * (l.loadKg.getD 0)))
    (hfz : g.frozen = false) (hdl : g.deload = false)
    (hm : medianRirOf g.recentLogs = some m)
    (hlt : m < g.profile.targetRirMin)
    (hmm : g.profile.targetRirMin ≤ g.profile.targetRirMax)
    (hcap : ¬(wv.volumePrevWeek > 0 ∧
      (if wv.volumePrevWeek = 0 then (0 : ℚ)
        else (wv.volumeThisWeek - wv.volumePrevWeek) / wv.volumePrevWeek * 100) >
        g.profile.maxWeeklyVolumeIncreasePct)) :
    (ex.computeNextTarget logs ctx).reps =
        some (max ex.repRange.min
          (((g.recentLogs.head?.bind (fun l => l.reps)).getD ex.repRange.min) - ex.repIncrement)) ∧
      (ex.computeNextTarget logs ctx).loadKg =
        some ((g.recentLogs.head?.bind (fun l => l.loadKg)).getD (ex.loadIncrementKg * 4)) := by
  subst hg hwv
  exact weightedNext_high_effort ex _ _ m hfz hdl hm hlt hmm hcap

/-- Witness for C1 (amended): one complete log of 8 reps at 20 kg with
`rir 2 < targetRirMin = 3`; the next target is 7 reps at 20 kg. -/
theorem c1_high_effort_decrements_reps_witness :
    ((getRecentCompleteLogs [logLowRir] ctx20 exW6to10.progressionProfile).frozen = false ∧
        (getRecentCompleteLogs [logLowRir] ctx20 exW6to10.progressionProfile).deload = false ∧
        medianRirOf (getRecentCompleteLogs [logLowRir] ctx20 exW6to10.progressionProfile).recentLogs =
          some 2 ∧
        (2 : ℚ) < (getRecentCompleteLogs [logLowRir] ctx20 exW6to10.progressionProfile).profile.targetRirMin) ∧
      (exW6to10.computeNextTarget [logLowRir] ctx20).reps =
          some (max exW6to10.repRange.min
            ((((getRecentCompleteLogs [logLowRir] ctx20 exW6to10.progressionProfile).recentLogs.head?.bind
                (fun l => l.reps)).getD exW6to10.repRange.min) - exW6to10.repIncrement)) ∧
        (exW6to10.computeNextTarget [logLowRir] ctx20).loadKg =
          some (((getRecentCompleteLogs [logLowRir] ctx20 exW6to10.progressionProfile).recentLogs.head?.bind
            (fun l => l.loadKg)).getD (exW6to10.loadIncrementKg * 4)) :=
  ⟨⟨by with_unfolding_all decide, by with_unfolding_all decide, by with_unfolding_all decide,
      by with_unfolding_all decide⟩,
    c1_high_effort_decrements_reps exW6to10 [logLowRir] ctx20 _ _ 2 rfl rfl
      (by with_unfolding_all decide) (by with_unfolding_all decide) (by with_unfolding_all decide)
      (by with_unfolding_all decide) (by with_unfolding_all decide) (by with_unfolding_all decide)⟩

/-- C5 counterexample: the most recent complete log carries
`pain0to10 = 7 ≥ painReduce = 5`, yet `deload = false`: the guardrail
selects its pain flags from the most recent pain-carrying logs of any
status, and here a newer skipped log with pain 0 fills the single
`freezeDaysIfPain = 1` slot. -/
theorem c5_deload_counterexample :
    (sortByTsDesc ([logSkippedNoPain, logCompletePain7].filter
        (fun l => decide (l.status = "complete")))).head? = some logCompletePain7 ∧
      logCompletePain7.pain0to10 = some 7 ∧
      ctxFreeze1.profile.painReduce = 5 ∧
      (exR15.computeNextTarget [logSkippedNoPain, logCompletePain7] ctxFreeze1).deload = false := by
  refine ⟨by with_unfolding_all rfl, rfl, by with_unfolding_all rfl, by with_unfolding_all rfl⟩

/-- C5 (amended): for a rep-based exercise with `painReduce = 5` and
`freezeDaysIfPain ≥ 1`, if the most recent log carrying a recorded pain
value — of any completion status, which is what the code selects — has
`pain0to10 = 7`, then `computeNextTarget` returns `deload = true` and
reps equal to `round(lastTarget * deloadVolumeFactor)` floored at
`minRepsFloor`, where `lastTarget` is the most recent complete log's
reps within the 14-day working set (or `repRange.min` if none). -/
theorem c5_pain_triggers_deload (ex : RepsExercise) (logs : List Log) (ctx : Ctx) (l0 : Log)
    (hhead : (sortByTsDesc (logs.filter (fun l => l.pain0to10.isSome))).head? = some l0)
    (hp : l0.pain0to10 = some 7)
    (hpr : (ex.progressionProfile.getD ctx.profile).painReduce = 5)
    (hfr : 1 ≤ (ex.progressionProfile.getD ctx.profile).freezeDaysIfPain) :
    (ex.computeNextTarget logs ctx).deload = true ∧
      (ex.computeNextTarget logs ctx).reps =
        some (max ex.minRepsFloor
          ((jsRound ((((getRecentCompleteLogs logs ctx ex.progressionProfile).recentLogs.head?.bind
                (fun l => l.reps)).getD ex.repRange.min) *
              (ex.progressionProfile.getD ctx.profile).deloadVolumeFactor) : ℤ) : ℚ)) := by
  have hd : (getRecentCompleteLogs logs ctx ex.progressionProfile).deload = true :=
    deload_of_pain_head logs ctx ex.progressionProfile l0 hhead
      (by rw [hp, hpr]; norm_num [Option.getD_some]) hfr
  have h := repsNext_deload ex (getRecentCompleteLogs logs ctx ex.progressionProfile)
    (getWeeklyVolume logs ctx.now (fun l => l.reps.getD 0)) hd
  exact ⟨h.2, h.1⟩

/-- Witness for C5 (amended): a single complete log of 10 reps with
pain 7 and `freezeDaysIfPain = 1` yields a deload to
`max(1, round(10 * 0.65)) = 7` reps. -/
theorem c5_pain_triggers_deload_witness :
    ((sortByTsDesc ([logCompletePain7].filter (fun l => l.pain0to10.isSome))).head? =
          some logCompletePain7 ∧
        logCompletePain7.pain0to10 = some 7 ∧
        (exR15.progressionProfile.getD ctxFreeze1.profile).painReduce = 5 ∧
        1 ≤ (exR15.progressionProfile.getD ctxFreeze1.profile).freezeDaysIfPain) ∧
      ((exR15.computeNextTarget [logCompletePain7] ctxFreeze1).deload = true ∧
        (exR15.computeNextTarget [logCompletePain7] ctxFreeze1).reps =
          some (max exR15.minRepsFloor
            ((jsRound ((((getRecentCompleteLogs [logCompletePain7] ctxFreeze1
                    exR15.progressionProfile).recentLogs.head?.bind
                  (fun l => l.reps)).getD exR15.repRange.min) *
                (exR15.progressionProfile.getD ctxFreeze1.profile).deloadVolumeFactor) : ℤ) : ℚ))) :=
  ⟨⟨by with_unfolding_all rfl, rfl, by with_unfolding_all rfl, by decide⟩,
    c5_pain_triggers_deload exR15 [logCompletePain7] ctxFreeze1 logCompletePain7
      (by with_unfolding_all rfl) rfl (by with_unfolding_all rfl) (by decide)⟩

/-- C6 counterexample: the claim's scenario (`repRange {6, 10}`, last
reps 10, `medianRir = 6` above `targetRirMax = 5`) with an additional
`pain0to10 = 9` report on the same log: the deload override produces
7 reps at 13 kg rather than the claimed reset to 6 reps at
`20 + 2.5 = 22.5` kg. -/
theorem c6_top_out_counterexample :
    medianRirOf (getRecentCompleteLogs [logTopEasyPain] ctx20 exW6to10.progressionProfile).recentLogs =
        some 6 ∧
      (6 : ℚ) > ctx20.profile.targetRirMax ∧
      ((getRecentCompleteLogs [logTopEasyPain] ctx20 exW6to10.progressionProfile).recentLogs.head?.bind
          (fun l => l.reps)) = some 10 ∧
      (exW6to10.computeNextTarget [logTopEasyPain] ctx20).reps = some 7 ∧
      (exW6to10.computeNextTarget [logTopEasyPain] ctx20).loadKg = some 13 ∧
      ((7 : ℚ) ≠ 6 ∧ (13 : ℚ) ≠ 20 + exW6to10.loadIncrementKg) := by
  with_unfolding_all decide

/-- C6 (amended): for a weighted exercise with `repRange {6, 10}`,
most recent working-set reps 10 at load `L`, `medianRir` above
`targetRirMax`, no freeze/deload and the weekly-volume cap not
triggered, `computeNextTarget` resets reps to 6 and returns
`loadKg = L + loadIncrementKg`. -/
theorem c6_top_out_adds_load (ex : WeightedRepsExercise) (logs : List Log) (ctx : Ctx)
    (g : GuardrailResult) (wv : WeeklyVolume) (m : ℚ) (l0 : Log) (L : ℚ)
    (hg : g = getRecentCompleteLogs logs ctx ex.progressionProfile)
    (hwv : wv = getWeeklyVolume logs ctx.now (fun l => (l.reps.getD 0) * (l.loadKg.getD 0)))
    (hfz : g.frozen = false) (hdl : g.deload = false)
    (hm : medianRirOf g.recentLogs = some m)
    (hgt : m > g.profile.targetRirMax)
    (hhead : g.recentLogs.head? = some l0)
    (hreps : l0.reps = some 10) (hload : l0.loadKg = some L)
    (hmin : ex.repRange.min = 6) (hmax : ex.repRange.max = 10)
    (hcap : ¬(wv.volumePrevWeek > 0 ∧
      (if wv.volumePrevWeek = 0 then (0 : ℚ)
        else (wv.volumeThisWeek - wv.volumePrevWeek) / wv.volumePrevWeek * 100) >
        g.profile.maxWeeklyVolumeIncreasePct)) :
    (ex.computeNextTarget logs ctx).reps = some 6 ∧
      (ex.computeNextTarget logs ctx).loadKg = some (L + ex.loadIncrementKg) := by
  subst hg hwv
  have h := weightedNext_top_out ex _ _ m l0 L hfz hdl hm hgt hhead hreps hload hmax hcap
  exact ⟨hmin ▸ h.1, h.2⟩

/-- Witness for C6 (amended): one complete log of 10 reps at 20 kg with
`rir 6 > targetRirMax = 5`; the next target is 6 reps at 22.5 kg. -/
theorem c6_top_out_adds_load_witness :
    ((getRecentCompleteLogs [logTopEasy] ctx20 exW6to10.progressionProfile).deload = false ∧
        medianRirOf (getRecentCompleteLogs [logTopEasy] ctx20 exW6to10.progressionProfile).recentLogs =
          some 6 ∧
        (6 : ℚ) > (getRecentCompleteLogs [logTopEasy] ctx20 exW6to10.progressionProfile).profile.targetRirMax ∧
        logTopEasy.reps = some 10 ∧ logTopEasy.loadKg = some 20) ∧
      ((exW6to10.computeNextTarget [logTopEasy] ctx20).reps = some 6 ∧
        (exW6to10.computeNextTarget [logTopEasy] ctx20).loadKg = some (20 + exW6to10.loadIncrementKg)) :=
  ⟨⟨by with_unfolding_all rfl, by with_unfolding_all rfl, by with_unfolding_all decide,
      rfl, rfl⟩,
    c6_top_out_adds_load exW6to10 [logTopEasy] ctx20 _ _ 6 logTopEasy 20 rfl rfl
      (by with_unfolding_all rfl) (by with_unfolding_all rfl) (by with_unfolding_all rfl)
      (by with_unfolding_all decide) (by with_unfolding_all rfl) rfl rfl rfl rfl
      (by with_unfolding_all decide)⟩

/-- C10: for a weighted exercise whose guardrail working set is empty,
with no deload and zero weekly volume, `computeNextTarget` falls back
to `repRange.min` reps and the `loadIncrementKg * 4` load. -/
theorem c10_no_history_fallback (ex : WeightedRepsExercise) (logs : List Log) (ctx : Ctx)
    (g : GuardrailResult) (wv : WeeklyVolume)
    (hg : g = getRecentCompleteLogs logs ctx ex.progressionProfile)
    (hwv : wv = getWeeklyVolume logs ctx.now (fun l => (l.reps.getD 0) * (l.loadKg.getD 0)))
    (hrec : g.recentLogs = []) (hdl : g.deload = false)
    (hthis : wv.volumeThisWeek = 0) (hprev : wv.volumePrevWeek = 0) :
    (ex.computeNextTarget logs ctx).reps = some ex.repRange.min ∧
      (ex.computeNextTarget logs ctx).loadKg = some (ex.loadIncrementKg * 4) := by
  subst hg hwv
  exact weightedNext_no_history ex _ _ hrec hdl hprev

/-- Witness for C10 at the empty log history. -/
theorem c10_no_history_fallback_witness :
    ((getRecentCompleteLogs [] ctx20 exW6to10.progressionProfile).recentLogs = [] ∧
        (getRecentCompleteLogs [] ctx20 exW6to10.progressionProfile).deload = false ∧
        (getWeeklyVolume [] ctx20.now (fun l => (l.reps.getD 0) * (l.loadKg.getD 0))).volumeThisWeek = 0 ∧
        (getWeeklyVolume [] ctx20.now (fun l => (l.reps.getD 0) * (l.loadKg.getD 0))).volumePrevWeek = 0) ∧
      ((exW6to10.computeNextTarget [] ctx20).reps = some exW6to10.repRange.min ∧
        (exW6to10.computeNextTarget [] ctx20).loadKg = some (exW6to10.loadIncrementKg * 4)) :=
  ⟨⟨rfl, by decide, rfl, rfl⟩,
    c10_no_history_fallback exW6to10 [] ctx20 _ _ rfl rfl rfl (by decide) rfl rfl⟩

end Dojo
